import Mathlib

/-!
Shallow embedding of the student-management dashboard core
(`src/student-dashboard/src`): the `useStudents` fetch hook, the
`validateForm` routine, the CRUD handlers (`handleAddStudent`,
`handleEditStudent`, `handleDeleteStudent`) and the `getCourseName`
helper of the main `App` component, together with theorems about them.

Strings are Lean `String`s; JS objects become structures; the optional
error keys of the validation-errors object become `Option String`
fields; the outcome of a `fetch` call (2xx with parsed body, non-2xx
status, network/parse error) becomes the `FetchResult` sum type.
-/

namespace StudentDashboard

/-- A record of the remote `Students` collection:
`{ id, name, email, course }`, all strings (`course` holds a course
code). -/
structure Student where
  id : String
  name : String
  email : String
  course : String
deriving DecidableEq, Repr

/-- A record of the remote `Courses` collection:
`{ id, code, name }`. -/
structure Course where
  id : String
  code : String
  name : String
deriving DecidableEq, Repr

/-- The `formData` state of `App`: `{ name: '', email: '', course: '' }`,
a Student minus its id. -/
structure FormData where
  name : String
  email : String
  course : String
deriving DecidableEq, Repr

/-- The `newErrors` object built by `validateForm`: a JS object whose
keys `name`, `email`, `course` are each present (with a message) or
absent. -/
structure ValidationErrors where
  name : Option String
  email : Option String
  course : Option String
deriving DecidableEq, Repr

/-- The fresh `{}` object: no error keys. -/
def ValidationErrors.empty : ValidationErrors := ⟨none, none, none⟩

/-- `Object.keys(newErrors).length === 0`: no error key is present. -/
def ValidationErrors.isEmpty (e : ValidationErrors) : Bool :=
  e.name.isNone && e.email.isNone && e.course.isNone

/-- JS `String.prototype.trim`: the character sequence of the string
with leading and trailing whitespace removed. -/
def jsTrim (s : String) : List Char :=
  ((s.data.dropWhile Char.isWhitespace).reverse.dropWhile Char.isWhitespace).reverse

/-- The character class `[^\s@]` of the email regular expression in
`validateForm`: any character that is neither whitespace nor `@`
(JS `\s` is modelled by `Char.isWhitespace`). -/
def isEmailChar (c : Char) : Bool :=
  !c.isWhitespace && !(c == '@')

/-- All decompositions of a list into a prefix/suffix pair, used to
express the regex's choice of where each `+`-group ends. -/
def splits : List Char → List (List Char × List Char)
  | [] => [([], [])]
  | c :: cs => ([], c :: cs) :: (splits cs).map (fun p => (c :: p.1, p.2))

/-- Denotation of the anchored regular expression
`/^[^\s@]+@[^\s@]+\.[^\s@]+$/` tested by `validateForm`: the whole
string decomposes as a nonempty run of `[^\s@]` characters, a literal
`@`, a nonempty run of `[^\s@]` characters, a literal `.`, and a final
nonempty run of `[^\s@]` characters. -/
def emailRegexTest (s : String) : Bool :=
  (splits s.data).any fun p =>
    !p.1.isEmpty && p.1.all isEmailChar &&
      (match p.2 with
       | '@' :: rest =>
         (splits rest).any fun q =>
           !q.1.isEmpty && q.1.all isEmailChar &&
             (match q.2 with
              | '.' :: r => !r.isEmpty && r.all isEmailChar
              | _ => false)
       | _ => false)

/-- The language of the email regular expression, stated structurally:
the string is `L ++ "@" ++ M ++ "." ++ R` with `L`, `M`, `R` nonempty
sequences of non-whitespace, non-`@` characters (`M` and `R` may
themselves contain further dots). -/
def emailMatches (s : String) : Prop :=
  ∃ L M R : List Char,
    s.data = L ++ '@' :: (M ++ '.' :: R) ∧
    L ≠ [] ∧ M ≠ [] ∧ R ≠ [] ∧
    L.all isEmailChar = true ∧ M.all isEmailChar = true ∧ R.all isEmailChar = true

/-- Modelled from the claim wording only (not from the source): the
"last dot" reading of the pattern `local-part@domain.tld` — at least
one non-whitespace non-`@` character before the `@`, at least one
between the `@` and the last `.` of the string, and at least one after
that last `.`. Compared against the source's `emailRegexTest`. -/
def emailLastDotTest (s : String) : Bool :=
  let l := s.data
  match l.findIdx? (fun c => c == '@') with
  | none => false
  | some ia =>
    match ((List.range l.length).filter (fun j => l.get? j == some '.')).getLast? with
    | none => false
    | some jd =>
      ((l.take ia).any isEmailChar) &&
      (((l.take jd).drop (ia + 1)).any isEmailChar) &&
      ((l.drop (jd + 1)).any isEmailChar)

/-- `validateForm` (App.jsx): collects an error object from the three
field checks.  `!formData.name.trim()` is emptiness of the trimmed
string, `!formData.course` is emptiness of the (string-valued) course
field, and the email check first requires a nonempty trimmed string and
then tests the regular expression against the untrimmed string. -/
def validateForm (formData : FormData) : ValidationErrors where
  name := if jsTrim formData.name = [] then some "Name is required" else none
  email :=
    if jsTrim formData.email = [] then some "Email is required"
    else if emailRegexTest formData.email then none
    else some "Please enter a valid email address"
  course := if formData.course = "" then some "Course selection is required" else none

/-- Outcome of an awaited `fetch` call: a 2xx response with its parsed
JSON body, a non-2xx response (`response.ok` false, status recorded),
or a network/parse error carrying the thrown message. -/
inductive FetchResult (α : Type) where
  | success (body : α)
  | httpError (status : Nat)
  | networkError (msg : String)
deriving DecidableEq, Repr

/-- The two failure outcomes: a non-2xx status or a network error. -/
def FetchResult.isFailure {α : Type} : FetchResult α → Bool
  | .success _ => false
  | .httpError _ => true
  | .networkError _ => true

/-- An HTTP request the CRUD handlers may issue against the `Students`
collection: `POST /Students` with a body, `PUT /Students/:id` with a
body, or `DELETE /Students/:id`. -/
inductive Request where
  | post (body : FormData)
  | put (id : String) (body : FormData)
  | delete (id : String)
deriving DecidableEq, Repr

/-- The `App` component state touched by the CRUD handlers: the
student list, the form, the validation-error object, the two dialog
flags and the student being edited. -/
structure AppState where
  students : List Student
  formData : FormData
  errors : ValidationErrors
  isAddDialogOpen : Bool
  isEditDialogOpen : Bool
  editingStudent : Option Student
deriving DecidableEq, Repr

/-- `resetForm` applied to a state: clears the form, the errors and
the editing pointer. -/
def resetForm (st : AppState) : AppState :=
  { st with
    formData := ⟨"", "", ""⟩
    errors := ValidationErrors.empty
    editingStudent := none }

/-- `handleAddStudent` (App.jsx), run to completion with the server's
response to its POST given as `r`.  It validates the form and stores
the errors; on validation failure it returns without issuing a
request.  Otherwise it POSTs a copy of the form data; on a 2xx
response it appends the returned record to `students`, resets the form
and closes the add dialog; on failure it only logs.  Returns the new
state and the request issued, if any. -/
def handleAddStudent (st : AppState) (r : FetchResult Student) :
    AppState × Option Request :=
  let newErrors := validateForm st.formData
  let st1 := { st with errors := newErrors }
  if !newErrors.isEmpty then (st1, none)
  else
    match r with
    | .success addedStudent =>
      (resetForm { st1 with
          students := st1.students ++ [addedStudent]
          isAddDialogOpen := false },
       some (.post st.formData))
    | _ => (st1, some (.post st.formData))

/-- `handleEditStudent` (App.jsx), run to completion with the server's
response to its PUT given as `r`.  Validation failure stores the
errors and returns without a request.  Otherwise the handler reads
`editingStudent.id` (a `none` there is the JS `TypeError` on reading a
property of `null`, modelled as `none`) and PUTs a copy of the form
data; on a 2xx response every student whose id equals the returned
record's id is replaced by that record, the form is reset and the edit
dialog closed; on failure it only logs. -/
def handleEditStudent (st : AppState) (r : FetchResult Student) :
    Option (AppState × Option Request) :=
  let newErrors := validateForm st.formData
  let st1 := { st with errors := newErrors }
  if !newErrors.isEmpty then some (st1, none)
  else
    match st.editingStudent with
    | none => none
    | some editing =>
      match r with
      | .success updatedStudent =>
        some
          (resetForm { st1 with
              students := st1.students.map fun student =>
                if student.id = updatedStudent.id then updatedStudent else student
              isEditDialogOpen := false },
           some (.put editing.id st.formData))
      | _ => some (st1, some (.put editing.id st.formData))

/-- `handleDeleteStudent` (App.jsx): `confirmed` is the value of the
`window.confirm` gate and `r` the server's response to the DELETE.  A
declined confirmation returns immediately with no request.  On a 2xx
response the students whose id differs from `id` are kept; on failure
it only logs. -/
def handleDeleteStudent (st : AppState) (id : String) (confirmed : Bool)
    (r : FetchResult Unit) : AppState × Option Request :=
  if !confirmed then (st, none)
  else
    match r with
    | .success _ =>
      ({ st with students := st.students.filter fun student => !(student.id = id) },
       some (.delete id))
    | _ => (st, some (.delete id))

/-- The state returned by the `useStudents` hook: the student list,
the loading flag and the error message. -/
structure StudentsHookState where
  students : List Student
  loading : Bool
  error : Option String
deriving DecidableEq, Repr

/-- The hook's `useState` initial values: empty list, `loading` true,
no error. -/
def initialHookState : StudentsHookState :=
  ⟨[], true, none⟩

/-- One run of `fetchStudents` inside `useStudents`, starting from the
initial state, with the fetch outcome given as `r`: a 2xx response
stores its body in `students`; a non-2xx response throws
`HTTP error! status: (code)` which the catch stores in `error`; a
network error stores the thrown message; the `finally` clears
`loading` in every case. -/
def fetchStudentsRun (r : FetchResult (List Student)) : StudentsHookState :=
  match r with
  | .success data => { initialHookState with students := data, loading := false }
  | .httpError status =>
    { initialHookState with
      error := some ("HTTP error! status: " ++ toString status)
      loading := false }
  | .networkError msg =>
    { initialHookState with error := some msg, loading := false }

/-- `getCourseName` (App.jsx): the name of the first course whose code
equals `courseCode`, or `courseCode` itself when none matches. -/
def getCourseName (courses : List Course) (courseCode : String) : String :=
  match courses.find? (fun c => c.code = courseCode) with
  | some course => course.name
  | none => courseCode

/-! ## Helper lemmas -/

/-- Membership in `splits` is exactly being a decomposition of the
list. -/
theorem mem_splits {l : List Char} {p : List Char × List Char} :
    p ∈ splits l ↔ p.1 ++ p.2 = l := by
  induction l generalizing p with
  | nil =>
    obtain ⟨a, b⟩ := p
    simp [splits, List.append_eq_nil]
  | cons c cs ih =>
    obtain ⟨a, b⟩ := p
    simp only [splits, List.mem_cons, List.mem_map, Prod.mk.injEq]
    constructor
    · rintro (⟨rfl, rfl⟩ | ⟨q, hq, rfl, rfl⟩)
      · rfl
      · have := ih.mp hq
        simpa using congrArg (c :: ·) this
    · intro h
      cases a with
      | nil =>
        left
        simpa using h
      | cons a0 as =>
        right
        injection h with h1 h2
        exact ⟨(as, b), ih.mpr h2, by simp [h1], rfl⟩

/-- The executable regex test accepts exactly the strings of the form
`L ++ "@" ++ M ++ "." ++ R` with `L`, `M`, `R` nonempty runs of
non-whitespace, non-`@` characters. -/
theorem emailRegexTest_iff {s : String} :
    emailRegexTest s = true ↔ emailMatches s := by
  unfold emailRegexTest emailMatches
  rw [List.any_eq_true]
  constructor
  · rintro ⟨⟨L, rest⟩, hmem, hp⟩
    rw [mem_splits] at hmem
    simp only [Bool.and_eq_true] at hp
    obtain ⟨⟨hL1, hL2⟩, hmatch⟩ := hp
    split at hmatch
    case h_2 => exact absurd hmatch (by simp)
    case h_1 c rest' =>
      rw [List.any_eq_true] at hmatch
      obtain ⟨⟨M, rest₂⟩, hmem₂, hq⟩ := hmatch
      rw [mem_splits] at hmem₂
      simp only [Bool.and_eq_true] at hq
      obtain ⟨⟨hM1, hM2⟩, hmatch₂⟩ := hq
      split at hmatch₂
      case h_2 => exact absurd hmatch₂ (by simp)
      case h_1 d R =>
        simp only [Bool.and_eq_true] at hmatch₂
        obtain ⟨hR1, hR2⟩ := hmatch₂
        refine ⟨L, M, R, ?_, ?_, ?_, ?_, hL2, hM2, hR2⟩
        · rw [← hmem, ← hmem₂]
        · simpa using hL1
        · simpa using hM1
        · simpa using hR1
  · rintro ⟨L, M, R, hs, hL, hM, hR, hLa, hMa, hRa⟩
    refine ⟨(L, '@' :: (M ++ '.' :: R)), mem_splits.mpr hs.symm, ?_⟩
    simp only [Bool.and_eq_true]
    refine ⟨⟨by simpa using hL, hLa⟩, ?_⟩
    show (splits (M ++ '.' :: R)).any _ = true
    rw [List.any_eq_true]
    refine ⟨(M, '.' :: R), mem_splits.mpr rfl, ?_⟩
    simp only [Bool.and_eq_true]
    exact ⟨⟨by simpa using hM, hMa⟩, by simp [hR, hRa]⟩

/-- Length bookkeeping for `List.filter` against the count of the
complementary predicate, specialised to student ids. -/
theorem length_filter_ne_aux (l : List Student) (id : String) :
    (l.filter fun s => !(s.id = id : Bool)).length + l.countP (fun s => (s.id = id : Bool)) =
      l.length := by
  induction l with
  | nil => simp
  | cons s t ih =>
    by_cases h : s.id = id <;>
      simp [List.filter_cons, List.countP_cons, h] <;> omega

/-! ## Claims -/

/-- Claim C1, counterexample: the claim says every `FormData`,
including one failing validation, is forwarded as the POST body.  On
the all-empty form — which fails validation — `handleAddStudent`
issues no request at all. -/
theorem create_forwards_counterexample :
    (validateForm ⟨"", "", ""⟩).isEmpty = false ∧
    (handleAddStudent ⟨[], ⟨"", "", ""⟩, ValidationErrors.empty, true, false, none⟩
        (.success ⟨"42", "A", "a@b.com", "CS101"⟩)).2 = none := by
  exact ⟨by decide, by decide⟩

/-- Claim C1, amended: `handleAddStudent` re-validates its input.  When
validation passes it forwards the current `FormData` as the POST body;
when validation fails it issues no request and leaves the student list
unchanged. -/
theorem create_validation_gate (st : AppState) (r : FetchResult Student) :
    ((validateForm st.formData).isEmpty = true →
      (handleAddStudent st r).2 = some (Request.post st.formData)) ∧
    ((validateForm st.formData).isEmpty = false →
      (handleAddStudent st r).2 = none ∧
      (handleAddStudent st r).1.students = st.students) := by
  unfold handleAddStudent
  constructor
  · intro h
    cases r <;> simp [h]
  · intro h
    simp [h]

/-- Claim C1 amended witness: a concrete valid form is forwarded as
the POST body. -/
theorem create_validation_gate_witness :
    (handleAddStudent
        ⟨[], ⟨"Jane Doe", "jane@example.com", "CS101"⟩, ValidationErrors.empty, true, false, none⟩
        (.httpError 500)).2 =
      some (Request.post ⟨"Jane Doe", "jane@example.com", "CS101"⟩) :=
  (create_validation_gate _ _).1 (by decide)

/-- Claim C2, counterexample: on the email `a@b.c.` (nonempty after
trimming) the "last dot" pattern of the claim fails — there is no
character after the last dot — so the claim demands the invalid-email
error; yet `validateForm` reports no email error, because the regular
expression accepts the split `a @ b . c.`. -/
theorem email_lastdot_counterexample :
    emailLastDotTest "a@b.c." = false ∧
    jsTrim "a@b.c." ≠ [] ∧
    (validateForm ⟨"x", "a@b.c.", "CS101"⟩).email = none := by
  exact ⟨by decide, by decide, by decide⟩

/-- Claim C2, amended: the email error is `Email is required` exactly
when the email is empty after trimming; otherwise the error
`Please enter a valid email address` appears exactly when the string
is not of the form `L@M.R` for **some** dot — nonempty runs of
non-whitespace non-`@` characters before the `@`, between the `@` and
that dot, and after that dot (the middle and final runs may contain
further dots). -/
theorem email_validation_rule (f : FormData) :
    ((validateForm f).email = some "Email is required" ↔ jsTrim f.email = []) ∧
    (jsTrim f.email ≠ [] →
      ((validateForm f).email = some "Please enter a valid email address" ↔
        ¬ emailMatches f.email)) := by
  unfold validateForm
  dsimp only
  constructor
  · by_cases h : jsTrim f.email = []
    · simp [h]
    · simp only [h, if_false]
      by_cases hr : emailRegexTest f.email <;> simp [hr, h]
  · intro h
    simp only [h, if_false]
    by_cases hr : emailRegexTest f.email <;>
      simp [hr, ← emailRegexTest_iff]

/-- Claim C2 amended witness: `jane@example.com` is nonempty after
trimming and matches, so no invalid-email error is reported. -/
theorem email_validation_rule_witness :
    (validateForm ⟨"x", "jane@example.com", "CS101"⟩).email ≠
      some "Please enter a valid email address" :=
  fun hc =>
    ((email_validation_rule ⟨"x", "jane@example.com", "CS101"⟩).2 (by decide)).mp hc
      ⟨"jane".data, "example".data, "com".data, by decide, by decide, by decide, by decide,
        by decide, by decide, by decide⟩

/-- Claim C3: after a successful POST, the student list is one longer,
its last element is the server-returned record, and its prefix is the
original list in its original order. -/
theorem create_success_postcondition (st : AppState) (a : Student)
    (h : (validateForm st.formData).isEmpty = true) :
    (handleAddStudent st (.success a)).1.students.length = st.students.length + 1 ∧
    (handleAddStudent st (.success a)).1.students.getLast? = some a ∧
    (handleAddStudent st (.success a)).1.students.take st.students.length = st.students := by
  unfold handleAddStudent resetForm
  simp [h, List.take_left]

/-- Claim C3 witness: appending the returned record `id 42` to a
one-element list. -/
theorem create_success_postcondition_witness :
    ((handleAddStudent
        ⟨[⟨"1", "B", "b@c.com", "CS102"⟩], ⟨"Jane Doe", "jane@example.com", "CS101"⟩,
          ValidationErrors.empty, true, false, none⟩
        (.success ⟨"42", "A", "a@b.com", "CS101"⟩)).1.students.length = 2) ∧
    ((handleAddStudent
        ⟨[⟨"1", "B", "b@c.com", "CS102"⟩], ⟨"Jane Doe", "jane@example.com", "CS101"⟩,
          ValidationErrors.empty, true, false, none⟩
        (.success ⟨"42", "A", "a@b.com", "CS101"⟩)).1.students.getLast? =
      some ⟨"42", "A", "a@b.com", "CS101"⟩) :=
  ⟨(create_success_postcondition _ _ (by decide)).1,
   (create_success_postcondition _ _ (by decide)).2.1⟩

/-- Claim C4: after a successful PUT the list keeps its length, every
position holding a student whose id equals the returned record's id
now holds that record, and every other position is structurally
unchanged — order preserved position by position. -/
theorem update_success_frame (st : AppState) (u e : Student)
    (hval : (validateForm st.formData).isEmpty = true)
    (hedit : st.editingStudent = some e)
    (hmem : ∃ s ∈ st.students, s.id = u.id) :
    ∃ st' req, handleEditStudent st (.success u) = some (st', req) ∧
      st'.students.length = st.students.length ∧
      ∀ i : Fin st.students.length,
        st'.students.get? i.val =
          some (if (st.students.get i).id = u.id then u else st.students.get i) := by
  clear hmem
  unfold handleEditStudent resetForm
  simp only [hval, hedit, Bool.not_true, Bool.false_eq_true, if_false]
  refine ⟨_, _, rfl, ?_, ?_⟩
  · simp
  · intro i
    simp [List.get?_map, List.get?_eq_get i.isLt]

/-- Claim C4 witness: replacing the student with id `7` by the
returned record. -/
theorem update_success_frame_witness :
    ∃ st' req,
      handleEditStudent
          ⟨[⟨"7", "Old", "old@b.com", "CS101"⟩], ⟨"New", "new@b.com", "CS101"⟩,
            ValidationErrors.empty, false, true, some ⟨"7", "Old", "old@b.com", "CS101"⟩⟩
          (.success ⟨"7", "New", "new@b.com", "CS101"⟩) = some (st', req) ∧
      st'.students.length = 1 := by
  obtain ⟨st', req, heq, hlen, -⟩ :=
    update_success_frame
      ⟨[⟨"7", "Old", "old@b.com", "CS101"⟩], ⟨"New", "new@b.com", "CS101"⟩,
        ValidationErrors.empty, false, true, some ⟨"7", "Old", "old@b.com", "CS101"⟩⟩
      ⟨"7", "New", "new@b.com", "CS101"⟩ ⟨"7", "Old", "old@b.com", "CS101"⟩
      (by decide) rfl ⟨⟨"7", "Old", "old@b.com", "CS101"⟩, by simp, rfl⟩
  exact ⟨st', req, heq, by simpa using hlen⟩

/-- Claim C5: a declined confirmation makes `handleDeleteStudent` a
no-op issuing no request; a confirmed, successful DELETE on a list
with exactly one entry of the given id removes every entry of that id
and shortens the list by one — removal by id equality. -/
theorem delete_behaviour (st : AppState) (id : String) (r : FetchResult Unit) :
    handleDeleteStudent st id false r = (st, none) ∧
    (st.students.countP (fun s => (s.id = id : Bool)) = 1 →
      (∀ s ∈ (handleDeleteStudent st id true (.success ())).1.students, s.id ≠ id) ∧
      (handleDeleteStudent st id true (.success ())).1.students.length + 1 =
        st.students.length) := by
  constructor
  · rfl
  · intro hcount
    unfold handleDeleteStudent
    simp only [Bool.not_true, Bool.false_eq_true, if_false]
    constructor
    · intro s hs
      have := (List.mem_filter.mp hs).2
      simpa using this
    · have := length_filter_ne_aux st.students id
      omega

/-- Claim C5 witness: deleting id `9` from the one-element list, both
declined and confirmed. -/
theorem delete_behaviour_witness :
    handleDeleteStudent
        ⟨[⟨"9", "A", "a@b.com", "CS101"⟩], ⟨"", "", ""⟩, ValidationErrors.empty,
          false, false, none⟩ "9" false (.success ()) =
      (⟨[⟨"9", "A", "a@b.com", "CS101"⟩], ⟨"", "", ""⟩, ValidationErrors.empty,
          false, false, none⟩, none) ∧
    (handleDeleteStudent
        ⟨[⟨"9", "A", "a@b.com", "CS101"⟩], ⟨"", "", ""⟩, ValidationErrors.empty,
          false, false, none⟩ "9" true (.success ())).1.students.length + 1 = 1 :=
  ⟨(delete_behaviour _ _ _).1,
   ((delete_behaviour ⟨[⟨"9", "A", "a@b.com", "CS101"⟩], ⟨"", "", ""⟩,
      ValidationErrors.empty, false, false, none⟩ "9" (.success ())).2 (by decide)).2⟩

/-- Claim C6: when the HTTP request of a create, update or delete
fails (non-2xx or network error), the student list after the handler
equals its pre-call value exactly. -/
theorem failure_atomicity (st : AppState) (id : String)
    (r : FetchResult Student) (ru : FetchResult Unit)
    (hr : r.isFailure = true) (hru : ru.isFailure = true) :
    (handleAddStudent st r).1.students = st.students ∧
    (∀ st' req, handleEditStudent st r = some (st', req) → st'.students = st.students) ∧
    (∀ confirmed : Bool, (handleDeleteStudent st id confirmed ru).1.students = st.students) := by
  refine ⟨?_, ?_, ?_⟩
  · unfold handleAddStudent
    by_cases hv : (validateForm st.formData).isEmpty
    · cases r with
      | success a => simp [FetchResult.isFailure] at hr
      | httpError status => simp [hv]
      | networkError msg => simp [hv]
    · simp [hv]
  · intro st' req h
    unfold handleEditStudent at h
    by_cases hv : (validateForm st.formData).isEmpty
    · simp only [hv, Bool.not_true, Bool.false_eq_true, if_false] at h
      cases hedit : st.editingStudent with
      | none => rw [hedit] at h; exact absurd h (by simp)
      | some e =>
        rw [hedit] at h
        cases r with
        | success a => simp [FetchResult.isFailure] at hr
        | httpError status =>
          simp only [Option.some.injEq, Prod.mk.injEq] at h
          rw [← h.1]
        | networkError msg =>
          simp only [Option.some.injEq, Prod.mk.injEq] at h
          rw [← h.1]
    · simp only [hv, Bool.not_false, if_true] at h
      simp only [Option.some.injEq, Prod.mk.injEq] at h
      rw [← h.1]
  · intro confirmed
    cases confirmed with
    | false => rfl
    | true =>
      unfold handleDeleteStudent
      cases ru with
      | success u => simp [FetchResult.isFailure] at hru
      | httpError status => simp
      | networkError msg => simp

/-- Claim C6 witness: a 500 on the POST leaves the one-element list
untouched. -/
theorem failure_atomicity_witness :
    (handleAddStudent
        ⟨[⟨"1", "B", "b@c.com", "CS102"⟩], ⟨"Jane Doe", "jane@example.com", "CS101"⟩,
          ValidationErrors.empty, true, false, none⟩
        (.httpError 500)).1.students = [⟨"1", "B", "b@c.com", "CS102"⟩] :=
  (failure_atomicity _ "1" (.httpError 500) (.networkError "Failed to fetch")
    (by decide) (by decide)).1

/-- Claim C7: a trimmed-empty name yields the error
`Name is required`, an empty course yields
`Course selection is required`, and Jane Doe's fully well-formed form
validates to the empty error object. -/
theorem required_field_rules (f : FormData) :
    (jsTrim f.name = [] → (validateForm f).name = some "Name is required") ∧
    (f.course = "" → (validateForm f).course = some "Course selection is required") ∧
    validateForm ⟨"Jane Doe", "jane@example.com", "CS101"⟩ = ValidationErrors.empty := by
  refine ⟨fun h => by simp [validateForm, h], fun h => by simp [validateForm, h], by decide⟩

/-- Claim C7 witness: a whitespace-only name and an empty course
produce both required-field errors. -/
theorem required_field_rules_witness :
    (validateForm ⟨"   ", "a@b.com", ""⟩).name = some "Name is required" ∧
    (validateForm ⟨"   ", "a@b.com", ""⟩).course = some "Course selection is required" :=
  ⟨(required_field_rules _).1 (by decide), (required_field_rules _).2.1 (by decide)⟩

/-- Claim C8: the hook starts with `loading` true and every settled
run ends with `loading` false; on a failed fetch the student list
stays empty and the error is recorded as a string — for a non-2xx
status, the `HTTP error! status:` message. -/
theorem hook_failure_and_settling (r : FetchResult (List Student)) :
    initialHookState.loading = true ∧
    (fetchStudentsRun r).loading = false ∧
    (r.isFailure = true →
      (fetchStudentsRun r).students = [] ∧ ∃ msg, (fetchStudentsRun r).error = some msg) ∧
    ∀ status, (fetchStudentsRun (.httpError status)).error =
      some ("HTTP error! status: " ++ toString status) := by
  refine ⟨rfl, ?_, ?_, fun status => rfl⟩
  · cases r <;> rfl
  · intro h
    cases r with
    | success data => simp [FetchResult.isFailure] at h
    | httpError status => exact ⟨rfl, _, rfl⟩
    | networkError msg => exact ⟨rfl, msg, rfl⟩

/-- Claim C8 witness: a 404 run settles with an empty list. -/
theorem hook_failure_and_settling_witness :
    (fetchStudentsRun (.httpError 404)).loading = false ∧
    (fetchStudentsRun (.httpError 404)).students = [] :=
  ⟨(hook_failure_and_settling (.httpError 404)).2.1,
   ((hook_failure_and_settling (.httpError 404)).2.2.1 (by decide)).1⟩

/-- Claim C9: `getCourseName` returns the name of the first course
whose code equals the input, and returns the input code unchanged when
no course matches. -/
theorem course_name_lookup (courses : List Course) (code : String) :
    (∀ pre c post, courses = pre ++ c :: post →
      (∀ p ∈ pre, p.code ≠ code) → c.code = code →
      getCourseName courses code = c.name) ∧
    ((∀ c ∈ courses, c.code ≠ code) → getCourseName courses code = code) := by
  constructor
  · intro pre c post hsplit hpre hc
    subst hsplit
    unfold getCourseName
    have hfind : (pre ++ c :: post).find? (fun x => (x.code = code : Bool)) = some c := by
      induction pre with
      | nil => simp [List.find?_cons, hc]
      | cons p0 pre' ih =>
        have hp0 : ¬ p0.code = code := hpre p0 (by simp)
        simp only [List.cons_append, List.find?_cons, hp0, decide_False]
        exact ih fun p hp => hpre p (by simp [hp])
    rw [hfind]
  · intro hnone
    unfold getCourseName
    have hfind : courses.find? (fun x => (x.code = code : Bool)) = none := by
      rw [List.find?_eq_none]
      intro x hx
      simpa using hnone x hx
    rw [hfind]

/-- Claim C9 witness: the spec's concrete table — `CS101` resolves to
`Intro to CS`, `UNKNOWN` and the empty course list fall back to the
input code. -/
theorem course_name_lookup_witness :
    getCourseName [⟨"1", "CS101", "Intro to CS"⟩] "CS101" = "Intro to CS" ∧
    getCourseName [⟨"1", "CS101", "Intro to CS"⟩] "UNKNOWN" = "UNKNOWN" ∧
    getCourseName [] "CS101" = "CS101" :=
  ⟨(course_name_lookup [⟨"1", "CS101", "Intro to CS"⟩] "CS101").1 []
      ⟨"1", "CS101", "Intro to CS"⟩ [] rfl (by simp) rfl,
   (course_name_lookup [⟨"1", "CS101", "Intro to CS"⟩] "UNKNOWN").2 (by decide),
   (course_name_lookup [] "CS101").2 (by simp)⟩

/-- Claim C10: when the returned record's id matches no student in the
list, the update reconciliation after a successful PUT leaves the list
structurally equal to the original. -/
theorem update_absent_id_noop (st : AppState) (u e : Student)
    (hval : (validateForm st.formData).isEmpty = true)
    (hedit : st.editingStudent = some e)
    (habs : ∀ s ∈ st.students, s.id ≠ u.id) :
    ∃ st' req, handleEditStudent st (.success u) = some (st', req) ∧
      st'.students = st.students := by
  unfold handleEditStudent resetForm
  simp only [hval, Bool.not_true, Bool.false_eq_true, if_false, hedit]
  refine ⟨_, _, rfl, ?_⟩
  simp only
  calc st.students.map (fun s => if s.id = u.id then u else s)
      = st.students.map id := List.map_congr_left fun s hs => by simp [habs s hs]
    _ = st.students := List.map_id _

/-- Claim C10 witness: a returned id `404` absent from the list leaves
the list unchanged. -/
theorem update_absent_id_noop_witness :
    ∃ st' req,
      handleEditStudent
          ⟨[⟨"7", "Old", "old@b.com", "CS101"⟩], ⟨"New", "new@b.com", "CS101"⟩,
            ValidationErrors.empty, false, true, some ⟨"7", "Old", "old@b.com", "CS101"⟩⟩
          (.success ⟨"404", "New", "new@b.com", "CS101"⟩) = some (st', req) ∧
      st'.students = [⟨"7", "Old", "old@b.com", "CS101"⟩] :=
  update_absent_id_noop
    ⟨[⟨"7", "Old", "old@b.com", "CS101"⟩], ⟨"New", "new@b.com", "CS101"⟩,
      ValidationErrors.empty, false, true, some ⟨"7", "Old", "old@b.com", "CS101"⟩⟩
    ⟨"404", "New", "new@b.com", "CS101"⟩ ⟨"7", "Old", "old@b.com", "CS101"⟩
    (by decide) rfl
    (by rintro s hs; rw [List.mem_singleton] at hs; subst hs; decide)

end StudentDashboard
